import Mathlib

/-!
Shallow embedding of the action-hub repository (pushkar0108/actions):
the SFTP action (src/sftp/sftp.ts, shipped unnamed) and the Google Drive
action (src/actions/google/drive/google_drive.ts).  External collaborators
(the ssh2 SFTP client, the googleapis Drive client, Hub.ActionCrypto,
https.post, JSON.parse of caller-supplied blobs) are modelled as explicit
environment records, so every embedded operation is a pure function of the
request and that environment.  Machine-level effects that the claims
observe (whether the destination transfer was invoked, whether a promise
resolved, rejected, or never settled) are recorded in explicit trace
structures.
-/

/-- JavaScript truthiness of an optional string: `undefined` and the empty
string are falsy, every other string is truthy. -/
def strTruthy : Option String → Bool
  | none => false
  | some s => s != ""

/-- JavaScript `a || b` on optional strings: yields `a` when `a` is truthy,
otherwise `b`. -/
def jsOr (a b : Option String) : Option String :=
  if strTruthy a then a else b

/-- An entry of a select field's `options` list (`{name, label}`). -/
structure Selection where
  name : String
  label : String
deriving DecidableEq, Repr

/-- Hub.ActionState: the opaque state blob echoed between hub and caller. -/
structure ActionState where
  data : Option String := none
deriving DecidableEq, Repr

/-- The structured `Error` record of hub/action_response. -/
structure ErrorDetail where
  http_code : Int
  status_code : String
  message : String
  location : String
  documentation_url : String
deriving DecidableEq, Repr

/-- Hub.ActionResponse.  A fresh `new Hub.ActionResponse()` has
`success = true` and every other attribute unset. -/
structure ActionResponse where
  success : Bool := true
  message : Option String := none
  state : Option ActionState := none
  error : Option ErrorDetail := none
  webhookId : Option String := none
deriving DecidableEq, Repr

/-- A form field as pushed by the actions (subset of Hub.ActionFormField
that the two embedded actions populate). -/
structure FormField where
  name : String
  label : Option String := none
  description : Option String := none
  type : Option String := none
  required : Bool := false
  interactive : Bool := false
  options : Option (List Selection) := none
  default : Option String := none
  oauth_url : Option String := none
deriving DecidableEq, Repr

/-- Hub.ActionForm: an ordered field list plus the echoed state blob. -/
structure ActionForm where
  fields : List FormField := []
  state : Option ActionState := none
deriving DecidableEq, Repr

/-! ## SFTP action (src/sftp/sftp.ts) -/

/-- The form parameters the SFTP action reads. -/
structure SftpFormParams where
  address : Option String := none
  username : Option String := none
  password : Option String := none
  filename : Option String := none
deriving DecidableEq, Repr

/-- The request attachment: payload metadata with an optionally
materialized data buffer (buffer contents abstracted to a string). -/
structure Attachment where
  dataBuffer : Option String := none
  mime : Option String := none
deriving DecidableEq, Repr

/-- The slice of Hub.ActionRequest the SFTP action consumes.
`request.suggestedFilename()` is a pure accessor of request metadata and
is carried as a field. -/
structure SftpRequest where
  attachment : Option Attachment := none
  formParams : SftpFormParams := {}
  suggestedFilename : Option String := none
deriving DecidableEq, Repr

/-- Result of `new URL(address)`: the parts the action reads. -/
structure UrlParts where
  hostname : String := ""
  pathname : String := ""
  port : Option String := none
deriving DecidableEq, Repr

/-- Environment of external effects for the SFTP action: WHATWG URL
parsing (throws on an invalid URL), `client.connect` and `client.put`
outcomes of the ssh2 sftp client. -/
structure SftpEnv where
  parseUrl : String → Except String UrlParts
  connect : Except String Unit
  put : Except String Unit

/-- How the promise returned by SFTPAction.execute settles.  The executor
passed to `new Promise` is an async function: a `throw` inside it (after
the explicit `reject` guards) rejects the executor's own promise, which
nobody observes, so the promise returned to the caller never settles —
recorded as `hung`. -/
inductive SftpOutcome where
  | resolved (resp : ActionResponse)
  | rejected (msg : String)
  | hung (msg : String)
deriving DecidableEq, Repr

/-- Observable trace of one SFTPAction.execute call: how the returned
promise settles and whether the destination transfer `client.put` was
invoked. -/
structure SftpTrace where
  outcome : SftpOutcome
  putCalled : Bool
deriving DecidableEq, Repr

/-- SFTPAction.execute.  Guards in source order: missing
attachment/dataBuffer and missing address call `reject` with a bare
string; then `sftpClientFromRequest` parses the URL (throw "[3]" when the
hostname is empty) and connects; the pathname check throws "[2]";
`Path.join` with an undefined filename throws a TypeError; finally
`client.put` resolves an ActionResponse — a put failure is *resolved* as
`{success:false, message}`, not rejected. -/
def SFTPAction.execute (env : SftpEnv) (req : SftpRequest) : SftpTrace :=
  match req.attachment with
  | none => ⟨.rejected "Couldn't get data from attachment.", false⟩
  | some att =>
    match att.dataBuffer with
    | none => ⟨.rejected "Couldn't get data from attachment.", false⟩
    | some _ =>
      if !(strTruthy req.formParams.address) then
        ⟨.rejected "Needs a valid SFTP address. [1]", false⟩
      else
        match env.parseUrl (req.formParams.address.getD "") with
        | .error e => ⟨.hung e, false⟩
        | .ok url =>
          if url.hostname == "" then
            ⟨.hung "Needs a valid SFTP address. [3]", false⟩
          else
            match env.connect with
            | .error e => ⟨.hung e, false⟩
            | .ok _ =>
              if url.pathname == "" then
                ⟨.hung "Needs a valid SFTP address. [2]", false⟩
              else
                match jsOr req.formParams.filename req.suggestedFilename with
                | none => ⟨.hung "TypeError: Path.join received undefined", false⟩
                | some _ =>
                  match env.put with
                  | .ok _ => ⟨.resolved {}, true⟩
                  | .error msg => ⟨.resolved { success := false, message := some msg }, true⟩

/-! ## Google Drive action (src/actions/google/drive/google_drive.ts) -/

/-- google-auth-library Credentials: an opaque token object.  A present
object is always truthy in JavaScript, so only its presence matters to the
`stateJson.tokens && stateJson.redirect` guard; the payload is abstracted
to its serialized form. -/
structure Credentials where
  blob : String
deriving DecidableEq, Repr

/-- The parsed shape of `params.state_json`:
`{tokens, redirect}`, either member possibly absent. -/
structure StateJson where
  tokens : Option Credentials := none
  redirect : Option String := none
deriving DecidableEq, Repr

/-- The guard `stateJson.tokens && stateJson.redirect`: the tokens object
is truthy when present; the redirect string is truthy when present and
non-empty. -/
def stateJsonUsable (sj : StateJson) : Bool :=
  sj.tokens.isSome && strTruthy sj.redirect

/-- The `params` slice the Google Drive action reads. -/
structure GoogleParams where
  state_json : Option String := none
  state_url : Option String := none
deriving DecidableEq, Repr

/-- The `formParams` slice the Google Drive action reads. -/
structure GoogleFormParams where
  search : Option String := none
  drive : Option String := none
  folder : Option String := none
  filename : Option String := none
  format : Option String := none
deriving DecidableEq, Repr

/-- The slice of Hub.ActionRequest the Google Drive action consumes.
`request.suggestedFilename()` is a pure accessor carried as a field;
`webhookId` is only copied into responses and logs. -/
structure GoogleRequest where
  params : GoogleParams := {}
  formParams : GoogleFormParams := {}
  webhookId : Option String := none
  suggestedFilename : Option String := none
deriving DecidableEq, Repr

/-- drive_v3.Schema$File: the fields read from a files.list entry, both
optional in the API schema. -/
structure DriveFile where
  id : Option String := none
  name : Option String := none
deriving DecidableEq, Repr

/-- drive_v3.Schema$Drive as consumed by getDrives: `d.id!` and `d.name!`
are TypeScript non-null assertions (no runtime effect), so the fields are
modelled at their asserted type. -/
structure SchemaDrive where
  id : String
  name : String
deriving DecidableEq, Repr

/-- The options object handed to `drive.files.list` in `form` (the fields
that vary with the request; the constant fields/orderBy/pageSize/spaces
members are fixed in the source and omitted). -/
structure FilesListOptions where
  q : String
  driveId : Option String := none
  corpora : String
deriving DecidableEq, Repr

/-- Environment of external effects for the Google Drive action:
`JSON.parse` of the caller-supplied state_json (throws on malformed
input), the drives.list response (`drives.data.drives` may be rejected or
absent), the merged paginated files.list response for given options (a
rejection carries its `status`), the files.list probe of oauthCheck,
the sendData destination write, Hub.ActionCrypto.encrypt, and the
ACTION_HUB_BASE_URL configuration. -/
structure DriveEnv where
  parseJson : String → Except String StateJson
  drivesList : Except String (Option (List SchemaDrive))
  filesList : FilesListOptions → Except Int (List DriveFile)
  filesProbe : Except String Unit
  sendData : Except String Unit
  encrypt : String → Except String String
  baseUrl : String

/-- generateQuery: folder-listing query, with a `name contains` clause
appended for a non-empty search string.  The single-quote character is
written via its code point. -/
def squote : String := String.singleton (Char.ofNat 39)

/-- generateQuery of google_drive.ts. -/
def generateQuery (search : String) : String :=
  let query := "mimeType=" ++ squote ++ "application/vnd.google-apps.folder" ++ squote ++ " and trashed=false"
  if search != "" then
    query ++ " and name contains " ++ squote ++ search ++ squote
  else
    query

/-- getDrives: seeds the selection list with My Drive, then appends every
shared drive of the drives.list response; a rejected drives.list call
propagates. -/
def getDrives (env : DriveEnv) : Except String (List Selection) :=
  match env.drivesList with
  | .error e => .error e
  | .ok drivesData =>
    let driveList : List Selection := [⟨"mydrive", "My Drive"⟩]
    match drivesData with
    | some ds => .ok (driveList ++ ds.map fun d => ⟨d.id, d.name⟩)
    | none => .ok driveList

/-- The catch-handler guard of the initial files.list call in `form`:
`reason.status !== 401 || reason.status !== 403`. -/
def probeCatchCond (status : Int) : Bool :=
  (status != 401) || (status != 403)

/-- The catch handler itself: when the guard holds it resolves
`{data: {files: []}}` (hence a merged empty file list); otherwise it logs
and returns undefined, which makes the subsequent pagedFileList access
throw — modelled as `none`. -/
def probeCatchHandler (status : Int) : Option (List DriveFile) :=
  if probeCatchCond status then some [] else none

/-- `drive.files.list(options)` guarded by the catch handler, with
pagedFileList pagination collapsed into the environment's merged list. -/
def listFilesWithCatch (env : DriveEnv) (opts : FilesListOptions) : Option (List DriveFile) :=
  match env.filesList opts with
  | .ok files => some files
  | .error status => probeCatchHandler status

/-- The drive.files.list options built in `form`: a shared-drive corpus
when `formParams.drive` is defined and not "mydrive", the user corpus
otherwise. -/
def buildListOptions (fp : GoogleFormParams) (query : String) : FilesListOptions :=
  match fp.drive with
  | some d =>
    if d != "mydrive" then
      { q := query, driveId := some d, corpora := "drive" }
    else
      { q := query, corpora := "user" }
  | none => { q := query, corpora := "user" }

/-- The folder select options: files with a defined id and name, mapped to
selections, with the Drive Root entry unshifted in front. -/
def folderOptions (files : List DriveFile) : List Selection :=
  let folders := (files.filter fun f => !(f.id == none) && !(f.name == none)).map
    fun f => ⟨f.id.getD "", f.name.getD ""⟩
  ⟨"root", "Drive Root"⟩ :: folders

/-- The drive select field pushed by `form` (`default` is
`driveSelections[0].name`; an out-of-range index would be undefined). -/
def driveField (selections : List Selection) : FormField :=
  { name := "drive",
    label := some "Select Drive to save file",
    description := some "Google Drive where your file will be saved",
    options := some selections,
    default := selections.head?.map Selection.name,
    interactive := true,
    required := true,
    type := some "select" }

/-- The folder select field pushed by `form` when a search was made. -/
def folderField (folders : List Selection) : FormField :=
  { name := "folder",
    label := some "Select folder to save file",
    description := some "Google Drive folder where your file will be saved",
    options := some folders,
    default := folders.head?.map Selection.name,
    required := true,
    type := some "select" }

/-- The filename field pushed by `form` when a search was made. -/
def filenameField : FormField :=
  { name := "filename", label := some "Enter a name", type := some "string", required := true }

/-- The interactive Fetch Folders field pushed by `form`. -/
def fetchField : FormField :=
  { name := "fetch",
    label := some "Fetch Folders",
    description := some "After entering text to search below, select \"Fetch Folders\"",
    type := some "select",
    required := true,
    interactive := true,
    options := some [⟨"reset", "Reset"⟩, ⟨"fetch", "Fetch Folders"⟩] }

/-- The search text field pushed by `form`. -/
def searchField : FormField :=
  { name := "search", label := some "Folder Name Search", type := some "string", required := true }

/-- `JSON.stringify({tokens: stateJson.tokens, redirect: stateJson.redirect})`
for the form's echoed state blob; the tokens object serializes to its
opaque blob and an undefined member is dropped by JSON.stringify. -/
def stringifyTokensRedirect (sj : StateJson) : String :=
  "\x7b\"tokens\":" ++ ((sj.tokens.map Credentials.blob).getD "null")
    ++ ",\"redirect\":" ++ ((sj.redirect.map fun r => "\"" ++ r ++ "\"").getD "null") ++ "\x7d"

/-- `JSON.stringify({stateurl: request.params.state_url})` of loginForm. -/
def stringifyStateurl : Option String → String
  | some u => "\x7b\"stateurl\":\"" ++ u ++ "\"\x7d"
  | none => "\x7b\x7d"

/-- loginForm: encrypts `{stateurl}` (an encryption failure is rethrown)
and returns the single oauth_link_google login field with a fresh empty
ActionState. -/
def loginForm (env : DriveEnv) (params : GoogleParams) : Except String ActionForm :=
  match env.encrypt (stringifyStateurl params.state_url) with
  | .error e => .error e
  | .ok ciphertextBlob =>
    .ok { fields := [{ name := "login",
                       type := some "oauth_link_google",
                       label := some "Log in",
                       description := some ("In order to send to Google Drive, you will need to log in"
                         ++ " once to your Google account."),
                       oauth_url := some (env.baseUrl ++ "/actions/google_drive/oauth?state=" ++ ciphertextBlob) }],
          state := some {} }

/-- The body of `form`'s try block once a usable state is in hand: build
the drive select, the search-dependent folder/filename fields, the fetch
and search fields, and echo the re-serialized `{tokens, redirect}` blob.
`none` marks a thrown error inside the try block (rejected drives.list, or
the unreachable undefined-returning catch branch), which the outer catch
converts into the login form. -/
def buildAuthedForm (env : DriveEnv) (fp : GoogleFormParams) (sj : StateJson) : Option ActionForm :=
  match getDrives env with
  | .error _ => none
  | .ok driveSelections =>
    let stateData := stringifyTokensRedirect sj
    match fp.search with
    | none =>
      some { fields := [driveField driveSelections, fetchField, searchField],
             state := some { data := some stateData } }
    | some search =>
      match listFilesWithCatch env (buildListOptions fp (generateQuery search)) with
      | none => none
      | some files =>
        some { fields := [driveField driveSelections,
                          folderField (folderOptions files),
                          filenameField, fetchField, searchField],
               state := some { data := some stateData } }

/-- GoogleDriveAction.form: with a truthy state_json that parses to a
usable `{tokens, redirect}`, the authorized form is returned; a parse
failure or any exception inside the try block falls through to loginForm,
as does a missing/unusable state.  A loginForm encryption failure is the
only rejection. -/
def GoogleDriveAction.form (env : DriveEnv) (req : GoogleRequest) : Except String ActionForm :=
  match req.params.state_json with
  | some s =>
    if s != "" then
      match env.parseJson s with
      | .ok sj =>
        if stateJsonUsable sj then
          match buildAuthedForm env req.formParams sj with
          | some f => .ok f
          | none => loginForm env req.params
        else loginForm env req.params
      | .error _ => loginForm env req.params
    else loginForm env req.params
  | none => loginForm env req.params

/-! ## Google Drive execute -/

/-- Modelled from the spec: the HTTP_ERROR table (error_types/http_errors)
is imported by the action but is not among the provided sources; its
bad_request and internal entries are modelled as constants, since no claim
inspects their values. -/
def HTTP_ERROR_bad_request_code : Int := 400

def HTTP_ERROR_bad_request_status : String := "BAD_REQUEST"

def HTTP_ERROR_bad_request_description : String := "Invalid request."

def HTTP_ERROR_internal_code : Int := 500

def HTTP_ERROR_internal_status : String := "INTERNAL"

def HTTP_ERROR_internal_description : String := "Internal server error."

/-- The structured error built when no filename can be derived. -/
def filenameError : ErrorDetail :=
  { http_code := HTTP_ERROR_bad_request_code,
    status_code := HTTP_ERROR_bad_request_status,
    message := HTTP_ERROR_bad_request_description ++ " Error creating filename from request",
    location := "ActionContainer",
    documentation_url := "TODO" }

/-- `errorWith(HTTP_ERROR.internal, "Error while sending data " + e.message)`:
the hub's errorWith helper is outside the provided sources; the sendData
failure here carries only a message, so the `e.code && e.reason`
refinement branch is not taken. -/
def sendDataError (msg : String) : ErrorDetail :=
  { http_code := HTTP_ERROR_internal_code,
    status_code := HTTP_ERROR_internal_status,
    message := "Error while sending data " ++ msg,
    location := "ActionContainer",
    documentation_url := "TODO" }

/-- The reset response produced for an absent or unusable state_json:
`success = false` and a fresh ActionState whose data is the reset
sentinel. -/
def resetResponse : ActionResponse :=
  { success := false, state := some { data := some "reset" } }

instance instDecEqExcept {ε α : Type} [DecidableEq ε] [DecidableEq α] :
    DecidableEq (Except ε α) := fun a b =>
  match a, b with
  | .ok x, .ok y =>
    if h : x = y then .isTrue (by rw [h]) else .isFalse (by simp [h])
  | .error x, .error y =>
    if h : x = y then .isTrue (by rw [h]) else .isFalse (by simp [h])
  | .ok _, .error _ => .isFalse (by simp)
  | .error _, .ok _ => .isFalse (by simp)

/-- Observable trace of one GoogleDriveAction.execute call: the settled
result (`Except.error` marks an uncaught throw, here only a JSON.parse
failure) and whether sendData — the destination transfer — was invoked. -/
structure ExecuteTrace where
  result : Except String ActionResponse
  sendDataCalled : Bool
deriving DecidableEq, Repr

/-- GoogleDriveAction.execute.  `if (!request.params.state_json)` catches
both an absent and an empty-string state_json and returns the reset
response; JSON.parse of a malformed blob throws uncaught; a parsed state
missing tokens or redirect also returns the reset response; otherwise the
filename is derived (`formParams.filename || request.suggestedFilename()`,
empty meaning a structured bad-request error) and sendData runs, its
failure caught into a `success = false` response. -/
def GoogleDriveAction.execute (env : DriveEnv) (req : GoogleRequest) : ExecuteTrace :=
  match req.params.state_json with
  | none => ⟨.ok resetResponse, false⟩
  | some s =>
    if s == "" then ⟨.ok resetResponse, false⟩
    else
      match env.parseJson s with
      | .error e => ⟨.error e, false⟩
      | .ok sj =>
        if stateJsonUsable sj then
          let filename := jsOr req.formParams.filename req.suggestedFilename
          if !(strTruthy filename) then
            ⟨.ok { success := false,
                   error := some filenameError,
                   message := some filenameError.message,
                   webhookId := req.webhookId }, false⟩
          else
            match env.sendData with
            | .ok _ => ⟨.ok { success := true }, true⟩
            | .error msg =>
              ⟨.ok { success := false,
                     message := some msg,
                     error := some (sendDataError msg),
                     webhookId := req.webhookId }, true⟩
        else ⟨.ok resetResponse, false⟩

/-! ## Google Drive OAuth operations -/

/-- GoogleDriveAction.oauthCheck: with a truthy state_json parsing to a
usable `{tokens, redirect}`, probes `drive.files.list({pageSize: 10})` and
returns true; with no usable state it returns false.  There is no
try/catch: a JSON.parse failure or a rejected probe propagates out as an
error. -/
def GoogleDriveAction.oauthCheck (env : DriveEnv) (req : GoogleRequest) : Except String Bool :=
  match req.params.state_json with
  | none => .ok false
  | some s =>
    if s == "" then .ok false
    else
      match env.parseJson s with
      | .error e => .error e
      | .ok sj =>
        if stateJsonUsable sj then
          match env.filesProbe with
          | .ok _ => .ok true
          | .error e => .error e
        else .ok false

/-- The OAuth client configuration read from the process environment. -/
structure OAuthConfig where
  clientId : String
  clientSecret : String
deriving DecidableEq, Repr

/-- The scopes requested by oauthUrl. -/
def driveScopes : List String := ["https://www.googleapis.com/auth/drive"]

/-- Model of google-auth-library's OAuth2Client.generateAuthUrl (external
dependency): the Google authorize endpoint with the given options as query
parameters.  Query-string encoding is modelled as the identity — the state
ciphertext produced by Hub.ActionCrypto is hex, on which URL encoding is
the identity. -/
def generateAuthUrl (clientId redirectUri accessType prompt state : String)
    (scope : List String) : String :=
  "https://accounts.google.com/o/oauth2/v2/auth?response_type=code&client_id=" ++ clientId
    ++ "&redirect_uri=" ++ redirectUri
    ++ "&access_type=" ++ accessType
    ++ "&scope=" ++ String.intercalate " " scope
    ++ "&prompt=" ++ prompt
    ++ "&state=" ++ state

/-- GoogleDriveAction.oauthUrl: a consent-prompting offline authorization
URL for the Drive scope, carrying the given encrypted state. -/
def GoogleDriveAction.oauthUrl (cfg : OAuthConfig) (redirectUri encryptedState : String) : String :=
  generateAuthUrl cfg.clientId redirectUri "offline" "consent" encryptedState driveScopes

/-- The `urlParams` read by oauthFetchInfo from the provider redirect. -/
structure UrlParams where
  state : String
  code : String
deriving DecidableEq, Repr

/-- The payload decoded from the decrypted state blob:
`JSON.parse(plaintext).stateurl`. -/
structure StatePayload where
  stateurl : Option String := none
deriving DecidableEq, Repr

/-- The body of the POST back to Looker, before JSON serialization:
`{tokens, redirect: redirectUri}`. -/
structure PostBody where
  tokens : Credentials
  redirect : String
deriving DecidableEq, Repr

/-- Environment of external effects for oauthFetchInfo:
Hub.ActionCrypto.decrypt, the provider token exchange
(`oauth2Client.getToken(code)` inside getAccessTokenCredentialsFromCode,
keyed by redirect URI and code), and JSON.parse of the decrypted
plaintext. -/
structure OAuthEnv where
  decrypt : String → Except String String
  getToken : String → String → Except String Credentials
  parsePayload : String → Except String StatePayload

/-- Observable trace of one oauthFetchInfo call: the settled result, the
token-exchange effect, and the POST effect (target URL recovered from the
decrypted state, and its body). -/
structure FetchInfoTrace where
  result : Except String Unit
  tokenExchangeCalled : Bool
  posted : Option (Option String × PostBody)
deriving DecidableEq, Repr

/-- GoogleDriveAction.oauthFetchInfo: decrypt the state (a failure is
logged and rethrown, so nothing later runs), exchange the code for tokens
(a rejection propagates), parse the plaintext and POST
`{tokens, redirect: redirectUri}` to `payload.stateurl` — a POST failure
is caught and only logged, so the call still resolves. -/
def GoogleDriveAction.oauthFetchInfo (env : OAuthEnv) (urlParams : UrlParams)
    (redirectUri : String) : FetchInfoTrace :=
  match env.decrypt urlParams.state with
  | .error err => ⟨.error err, false, none⟩
  | .ok plaintext =>
    match env.getToken redirectUri urlParams.code with
    | .error e => ⟨.error e, true, none⟩
    | .ok tokens =>
      match env.parsePayload plaintext with
      | .error e => ⟨.error e, true, none⟩
      | .ok payload =>
        ⟨.ok (), true, some (payload.stateurl, ⟨tokens, redirectUri⟩)⟩

/-! ## Concrete fixtures used by witnesses and counterexamples -/

/-- A witness environment whose decrypt always fails, as after tampering
or a key mismatch. -/
def oauthEnvBadDecrypt : OAuthEnv :=
  { decrypt := fun _ => .error "bad decrypt",
    getToken := fun _ _ => .ok ⟨"tok"⟩,
    parsePayload := fun _ => .ok { stateurl := some "https://looker.example/done" } }

/-- A witness environment for the OAuth happy path. -/
def oauthEnvHappy : OAuthEnv :=
  { decrypt := fun _ => .ok "plain",
    getToken := fun _ _ => .ok ⟨"tok"⟩,
    parsePayload := fun _ => .ok { stateurl := some "https://looker.example/done" } }

/-- A benign Google Drive environment for witnesses. -/
def driveEnvW : DriveEnv :=
  { parseJson := fun _ => .ok { tokens := some ⟨"tok"⟩, redirect := some "https://hub.example/redirect" },
    drivesList := .ok (some [⟨"teamdrive1", "Team Drive"⟩]),
    filesList := fun _ => .ok [{ id := some "f1", name := some "Reports" }],
    filesProbe := .ok (),
    sendData := .ok (),
    encrypt := fun s => .ok ("enc:" ++ s),
    baseUrl := "https://hub.example" }

/-- A Google Drive environment whose files.list probe is rejected by the
provider, as after a revoked grant. -/
def driveEnvRevoked : DriveEnv :=
  { parseJson := fun _ => .ok { tokens := some ⟨"tok"⟩, redirect := some "https://hub.example/redirect" },
    drivesList := .ok (some []),
    filesList := fun _ => .error 403,
    filesProbe := .error "invalid_grant",
    sendData := .ok (),
    encrypt := fun s => .ok ("enc:" ++ s),
    baseUrl := "https://hub.example" }

/-- A request carrying a (parsable, usable) state_json blob. -/
def reqWithState : GoogleRequest :=
  { params := { state_json := some "statejson" } }

/-- A request with no state_json at all. -/
def reqNoState : GoogleRequest := {}

/-- A request equal to [reqVariantB] on params and formParams but
differing in webhookId and suggestedFilename. -/
def reqVariantA : GoogleRequest :=
  { params := { state_json := some "statejson" },
    formParams := { search := some "quarterly" },
    webhookId := some "wh-1",
    suggestedFilename := some "a.csv" }

/-- A request equal to [reqVariantA] on params and formParams but
differing in webhookId and suggestedFilename. -/
def reqVariantB : GoogleRequest :=
  { params := { state_json := some "statejson" },
    formParams := { search := some "quarterly" },
    webhookId := some "wh-2" }

/-- A benign SFTP environment for witnesses. -/
def sftpEnvW : SftpEnv :=
  { parseUrl := fun _ => .ok { hostname := "files.example", pathname := "/upload" },
    connect := .ok (),
    put := .ok () }

/-- An SFTP request with a materialized attachment but no address. -/
def sftpReqNoAddress : SftpRequest :=
  { attachment := some { dataBuffer := some "a,b\n1,2" } }

/-! ## Claim theorems -/

/-- C1: whenever decryption of `urlParams.state` fails, oauthFetchInfo
propagates that failure as an error, the token exchange
(getAccessTokenCredentialsFromCode) is never reached, nothing is posted,
and the failure is never converted into a default/unauthenticated
continuation. -/
theorem oauthFetchInfo_decrypt_failure_fails_closed (env : OAuthEnv) (urlParams : UrlParams)
    (redirectUri err : String) (h : env.decrypt urlParams.state = .error err) :
    GoogleDriveAction.oauthFetchInfo env urlParams redirectUri =
      ⟨.error err, false, none⟩ := by
  unfold GoogleDriveAction.oauthFetchInfo
  rw [h]

/-- Witness for C1 at a concrete tampered state. -/
theorem oauthFetchInfo_decrypt_failure_fails_closed_witness :
    GoogleDriveAction.oauthFetchInfo oauthEnvBadDecrypt ⟨"tampered", "authcode"⟩
        "https://hub.example/redirect" = ⟨.error "bad decrypt", false, none⟩ :=
  oauthFetchInfo_decrypt_failure_fails_closed oauthEnvBadDecrypt ⟨"tampered", "authcode"⟩
    "https://hub.example/redirect" "bad decrypt" rfl

/-- C2: oauthUrl embeds the given encrypted state as the URL's state
parameter, and oauthFetchInfo, fed that exact state with a valid code,
decrypts it, performs the token exchange, and posts
`{tokens, redirect: redirectUri}` to the stateurl recovered from the
decrypted payload. -/
theorem oauth_happy_path (cfg : OAuthConfig) (env : OAuthEnv) (urlParams : UrlParams)
    (redirectUri encryptedState plaintext : String) (payload : StatePayload)
    (tokens : Credentials)
    (hstate : urlParams.state = encryptedState)
    (hdec : env.decrypt encryptedState = .ok plaintext)
    (hpay : env.parsePayload plaintext = .ok payload)
    (htok : env.getToken redirectUri urlParams.code = .ok tokens) :
    (∃ p, GoogleDriveAction.oauthUrl cfg redirectUri encryptedState =
        p ++ "&state=" ++ encryptedState) ∧
    GoogleDriveAction.oauthFetchInfo env urlParams redirectUri =
      ⟨.ok (), true, some (payload.stateurl, ⟨tokens, redirectUri⟩)⟩ := by
  constructor
  · exact ⟨_, rfl⟩
  · unfold GoogleDriveAction.oauthFetchInfo
    simp only [hstate, hdec, htok, hpay]

/-- Witness for C2 at concrete configuration, state and code. -/
theorem oauth_happy_path_witness :
    (∃ p, GoogleDriveAction.oauthUrl ⟨"cid", "secret"⟩ "https://hub.example/redirect" "deadbeef" =
        p ++ "&state=" ++ "deadbeef") ∧
    GoogleDriveAction.oauthFetchInfo oauthEnvHappy ⟨"deadbeef", "authcode"⟩
        "https://hub.example/redirect" =
      ⟨.ok (), true, some (some "https://looker.example/done",
        ⟨⟨"tok"⟩, "https://hub.example/redirect"⟩)⟩ :=
  oauth_happy_path ⟨"cid", "secret"⟩ oauthEnvHappy ⟨"deadbeef", "authcode"⟩
    "https://hub.example/redirect" "deadbeef" "plain"
    { stateurl := some "https://looker.example/done" } ⟨"tok"⟩ rfl rfl rfl rfl

/-- C4: the catch guard `reason.status !== 401 || reason.status !== 403`
of the initial files.list call is a tautology, so the handler resolves an
empty file list for every rejection status and the logging branch that
returns undefined is unreachable. -/
theorem probeCatch_guard_tautology (status : Int) :
    probeCatchCond status = true ∧ probeCatchHandler status = some [] := by
  have h : probeCatchCond status = true := by
    simp only [probeCatchCond, Bool.or_eq_true, bne_iff_ne, ne_eq]
    omega
  refine ⟨h, ?_⟩
  unfold probeCatchHandler
  rw [h]
  rfl

/-- C9: a missing attachment or unmaterialized dataBuffer makes
SFTPAction.execute reject with the bare string
"Couldn't get data from attachment." (not a structured ActionResponse),
and a present attachment with a falsy address rejects with the bare
string "Needs a valid SFTP address. [1]"; in both cases client.put is
never invoked. -/
theorem sftp_execute_raw_rejections (env : SftpEnv) (req : SftpRequest) :
    ((req.attachment = none ∨ ∃ att, req.attachment = some att ∧ att.dataBuffer = none) →
      SFTPAction.execute env req = ⟨.rejected "Couldn't get data from attachment.", false⟩) ∧
    ((∃ att buf, req.attachment = some att ∧ att.dataBuffer = some buf) →
      strTruthy req.formParams.address = false →
      SFTPAction.execute env req = ⟨.rejected "Needs a valid SFTP address. [1]", false⟩) := by
  constructor
  · rintro (h | ⟨att, hatt, hbuf⟩)
    · unfold SFTPAction.execute
      rw [h]
    · unfold SFTPAction.execute
      rw [hatt]
      simp only [hbuf]
  · rintro ⟨att, buf, hatt, hbuf⟩ haddr
    unfold SFTPAction.execute
    rw [hatt]
    simp only [hbuf, haddr, Bool.not_false, if_true]

/-- Witness for C9: a request with no attachment, and a request with an
attachment but no address, both at a benign environment. -/
theorem sftp_execute_raw_rejections_witness :
    SFTPAction.execute sftpEnvW {} = ⟨.rejected "Couldn't get data from attachment.", false⟩ ∧
    SFTPAction.execute sftpEnvW sftpReqNoAddress =
      ⟨.rejected "Needs a valid SFTP address. [1]", false⟩ :=
  ⟨(sftp_execute_raw_rejections sftpEnvW {}).1 (Or.inl rfl),
   (sftp_execute_raw_rejections sftpEnvW sftpReqNoAddress).2
     ⟨{ dataBuffer := some "a,b\n1,2" }, "a,b\n1,2", rfl, rfl⟩ rfl⟩

/-- C3 counterexample: at a request whose required `address` form field is
absent (attachment present and materialized), SFTPAction.execute does not
resolve to any `success = false` ActionResponse — it rejects the promise
with the bare string "Needs a valid SFTP address. [1]" — refuting the
claim that the validation failure is returned as a structured error
response.  (The transfer logic is indeed never invoked.) -/
theorem sftp_missing_address_not_structured_cex :
    (SFTPAction.execute sftpEnvW sftpReqNoAddress).putCalled = false ∧
    (SFTPAction.execute sftpEnvW sftpReqNoAddress).outcome =
      .rejected "Needs a valid SFTP address. [1]" ∧
    ¬ ∃ resp, (SFTPAction.execute sftpEnvW sftpReqNoAddress).outcome =
        SftpOutcome.resolved resp ∧ resp.success = false := by
  refine ⟨rfl, rfl, ?_⟩
  rintro ⟨resp, hresp, -⟩
  have h : (SFTPAction.execute sftpEnvW sftpReqNoAddress).outcome =
      SftpOutcome.rejected "Needs a valid SFTP address. [1]" := rfl
  rw [h] at hresp
  exact SftpOutcome.noConfusion hresp

/-- C3 amended: for every request with a materialized attachment and an
absent `address` form field, SFTPAction.execute rejects with the bare
string "Needs a valid SFTP address. [1]" (which references the address),
and client.put is never invoked. -/
theorem sftp_missing_address_rejects_before_put (env : SftpEnv) (req : SftpRequest)
    (hatt : ∃ att buf, req.attachment = some att ∧ att.dataBuffer = some buf)
    (haddr : req.formParams.address = none) :
    SFTPAction.execute env req = ⟨.rejected "Needs a valid SFTP address. [1]", false⟩ :=
  (sftp_execute_raw_rejections env req).2 hatt (by rw [haddr]; rfl)

/-- Witness for the amended C3 at a concrete request. -/
theorem sftp_missing_address_rejects_before_put_witness :
    SFTPAction.execute sftpEnvW sftpReqNoAddress =
      ⟨.rejected "Needs a valid SFTP address. [1]", false⟩ :=
  sftp_missing_address_rejects_before_put sftpEnvW sftpReqNoAddress
    ⟨{ dataBuffer := some "a,b\n1,2" }, "a,b\n1,2", rfl, rfl⟩ rfl

/-- C6: when state_json is absent, or parses to a value missing its
tokens or redirect member, GoogleDriveAction.execute returns a
`success = false` response whose state data is the reset sentinel
"reset", and sendData is never invoked. -/
theorem drive_execute_unusable_state_resets (env : DriveEnv) (req : GoogleRequest)
    (h : req.params.state_json = none ∨
      ∃ s sj, req.params.state_json = some s ∧ env.parseJson s = .ok sj ∧
        (sj.tokens = none ∨ sj.redirect = none)) :
    GoogleDriveAction.execute env req = ⟨.ok resetResponse, false⟩ ∧
    resetResponse.success = false ∧
    resetResponse.state = some { data := some "reset" } := by
  refine ⟨?_, rfl, rfl⟩
  unfold GoogleDriveAction.execute
  rcases h with h | ⟨s, sj, hs, hp, hu⟩
  · rw [h]
  · rw [hs]
    by_cases hse : s = ""
    · simp [hse]
    · have hu' : stateJsonUsable sj = false := by
        rcases hu with h1 | h1 <;> simp [stateJsonUsable, h1, strTruthy]
      simp [hse, hp, hu']

/-- Witness for C6 at a request with no state_json. -/
theorem drive_execute_unusable_state_resets_witness :
    GoogleDriveAction.execute driveEnvW reqNoState = ⟨.ok resetResponse, false⟩ ∧
    resetResponse.success = false ∧
    resetResponse.state = some { data := some "reset" } :=
  drive_execute_unusable_state_resets driveEnvW reqNoState (Or.inl rfl)

/-- C5 counterexample: at a usable continuation state whose probe is
rejected by the provider, oauthCheck does not produce any returned value
at all — much less a `success = false` response carrying the reset
sentinel: the rejection propagates out of oauthCheck as an uncaught
error. -/
theorem oauthCheck_provider_rejection_cex :
    GoogleDriveAction.oauthCheck driveEnvRevoked reqWithState = .error "invalid_grant" ∧
    ¬ ∃ b, GoogleDriveAction.oauthCheck driveEnvRevoked reqWithState = .ok b := by
  have h : GoogleDriveAction.oauthCheck driveEnvRevoked reqWithState =
      .error "invalid_grant" := rfl
  refine ⟨h, ?_⟩
  rintro ⟨b, hb⟩
  rw [h] at hb
  exact Except.noConfusion hb

/-- C5 amended: a provider-side rejection of the oauthCheck probe
propagates out of oauthCheck as an uncaught error; oauthCheck itself
never converts it into a `success = false`/reset response (it returns
false only when no usable state_json is present, and true when the probe
succeeds). -/
theorem oauthCheck_provider_rejection_propagates (env : DriveEnv) (req : GoogleRequest)
    (s err : String) (sj : StateJson)
    (hs : req.params.state_json = some s) (hne : s ≠ "")
    (hp : env.parseJson s = .ok sj) (hu : stateJsonUsable sj = true)
    (hprobe : env.filesProbe = .error err) :
    GoogleDriveAction.oauthCheck env req = .error err := by
  unfold GoogleDriveAction.oauthCheck
  rw [hs]
  simp [hne, hp, hu, hprobe]

/-- Witness for the amended C5 at a concrete revoked-grant environment. -/
theorem oauthCheck_provider_rejection_propagates_witness :
    GoogleDriveAction.oauthCheck driveEnvRevoked reqWithState = .error "invalid_grant" :=
  oauthCheck_provider_rejection_propagates driveEnvRevoked reqWithState
    "statejson" "invalid_grant"
    { tokens := some ⟨"tok"⟩, redirect := some "https://hub.example/redirect" }
    rfl (by decide) rfl rfl rfl

/-- C10: getDrives yields the {mydrive, My Drive} entry first, with the
shared drives of the drives.list response appended after it, so the list
is never empty and the drive select field built by `form` gets the
defined default "mydrive" (`driveSelections[0].name`). -/
theorem getDrives_mydrive_first (env : DriveEnv) (drivesData : Option (List SchemaDrive))
    (ds : List Selection)
    (hd : env.drivesList = .ok drivesData)
    (hg : getDrives env = .ok ds) :
    ds = ⟨"mydrive", "My Drive"⟩ :: (drivesData.getD []).map (fun d => ⟨d.id, d.name⟩) ∧
    ds ≠ [] ∧
    (driveField ds).default = some "mydrive" := by
  unfold getDrives at hg
  rw [hd] at hg
  cases drivesData with
  | none =>
    simp only [Except.ok.injEq] at hg
    subst hg
    exact ⟨by simp, by simp, rfl⟩
  | some l =>
    simp only [Except.ok.injEq] at hg
    subst hg
    exact ⟨by simp, by simp, rfl⟩

/-- Witness for C10 at an account with one shared drive. -/
theorem getDrives_mydrive_first_witness :
    [(⟨"mydrive", "My Drive"⟩ : Selection), ⟨"teamdrive1", "Team Drive"⟩] =
      ⟨"mydrive", "My Drive"⟩ ::
        ((some [(⟨"teamdrive1", "Team Drive"⟩ : SchemaDrive)]).getD []).map
          (fun d => ⟨d.id, d.name⟩) ∧
    [(⟨"mydrive", "My Drive"⟩ : Selection), ⟨"teamdrive1", "Team Drive"⟩] ≠ [] ∧
    (driveField [⟨"mydrive", "My Drive"⟩, ⟨"teamdrive1", "Team Drive"⟩]).default =
      some "mydrive" :=
  getDrives_mydrive_first driveEnvW (some [⟨"teamdrive1", "Team Drive"⟩])
    [⟨"mydrive", "My Drive"⟩, ⟨"teamdrive1", "Team Drive"⟩] rfl rfl

/-- C7: `form` is a pure function of request.params and request.formParams
— with the external drive listing fixed as an environment input, two
requests agreeing on params and formParams produce the same ActionForm
(including the same echoed state blob), independent of any other request
attribute or server-held session state. -/
theorem form_pure_in_params_and_formParams (env : DriveEnv) (r1 r2 : GoogleRequest)
    (hp : r1.params = r2.params) (hf : r1.formParams = r2.formParams) :
    GoogleDriveAction.form env r1 = GoogleDriveAction.form env r2 := by
  unfold GoogleDriveAction.form
  rw [hp, hf]

/-- Witness for C7: two requests differing only in webhookId and
suggestedFilename get the same form. -/
theorem form_pure_in_params_and_formParams_witness :
    GoogleDriveAction.form driveEnvW reqVariantA = GoogleDriveAction.form driveEnvW reqVariantB :=
  form_pure_in_params_and_formParams driveEnvW reqVariantA reqVariantB rfl rfl

/-- C8: with a usable continuation state and `formParams.search` still
undefined, `form` does not throw and still returns the interactive
`drive` and `fetch` fields awaiting the caller's selection. -/
theorem form_keeps_interactive_fields_without_search (env : DriveEnv) (req : GoogleRequest)
    (s : String) (sj : StateJson) (dd : Option (List SchemaDrive))
    (hs : req.params.state_json = some s) (hne : s ≠ "")
    (hp : env.parseJson s = .ok sj) (hu : stateJsonUsable sj = true)
    (hdrives : env.drivesList = .ok dd)
    (hsearch : req.formParams.search = none) :
    ∃ f, GoogleDriveAction.form env req = .ok f ∧
      (∃ fld ∈ f.fields, fld.name = "drive" ∧ fld.interactive = true) ∧
      (∃ fld ∈ f.fields, fld.name = "fetch" ∧ fld.interactive = true) := by
  obtain ⟨sel, hsel⟩ : ∃ sel, getDrives env = .ok sel := by
    unfold getDrives
    rw [hdrives]
    cases dd <;> exact ⟨_, rfl⟩
  refine ⟨{ fields := [driveField sel, fetchField, searchField],
            state := some { data := some (stringifyTokensRedirect sj) } }, ?_, ?_, ?_⟩
  · unfold GoogleDriveAction.form buildAuthedForm
    rw [hs]
    simp [hne, hp, hu, hsel, hsearch]
  · exact ⟨driveField sel, by simp, rfl, rfl⟩
  · exact ⟨fetchField, by simp, rfl, rfl⟩

/-- Witness for C8 at a concrete usable state with no search yet. -/
theorem form_keeps_interactive_fields_without_search_witness :
    ∃ f, GoogleDriveAction.form driveEnvW reqWithState = .ok f ∧
      (∃ fld ∈ f.fields, fld.name = "drive" ∧ fld.interactive = true) ∧
      (∃ fld ∈ f.fields, fld.name = "fetch" ∧ fld.interactive = true) :=
  form_keeps_interactive_fields_without_search driveEnvW reqWithState "statejson"
    { tokens := some ⟨"tok"⟩, redirect := some "https://hub.example/redirect" }
    (some [⟨"teamdrive1", "Team Drive"⟩]) rfl (by decide) rfl rfl rfl rfl
